import Mathlib

/-!
Formalization of the retry / backoff / notification-sequencing core of a
serverless form backend (contact form + waitlist).

The TypeScript sources are embedded shallowly:
  * `EmailService.retryWithBackoff` and its backoff computation become pure
    functions over rationals (JS numbers are modelled as exact rationals; the
    value of `Math.random()` is supplied as an explicit stream of rationals in
    `[0, 1)`).
  * thrown JS values are modelled by `ErrVal`, capturing exactly the shape
    information the code inspects (object-ness and a numeric `statusCode`).
  * `DatabaseService` is modelled as a list of records; its query backend is
    modelled as an equality-filter / ordering / result-count-limit interface.
  * the HTTP handler cores (post-validation) become functions from the store
    and the gateway behaviour to a response, a final store and an event trace
    recording persistence and gateway send attempts in order.
-/

/-! ## Retry configuration constants (fields of `EmailService`) -/

def MAX_RETRIES : ℕ := 3

def INITIAL_DELAY_MS : ℚ := 1000

def MAX_DELAY_MS : ℚ := 30000

def BACKOFF_MULTIPLIER : ℚ := 2

def JITTER_PERCENTAGE : ℚ := 1/4

/-! ## Backoff computation

`retryWithBackoff` computes, after a failed attempt `attempt` (1-based):
`baseDelay = INITIAL_DELAY_MS * BACKOFF_MULTIPLIER ^ attempt`,
`cappedDelay = min baseDelay MAX_DELAY_MS`,
`jitter = cappedDelay * JITTER_PERCENTAGE * (Math.random() * 2 - 1)`,
`delayMs = Math.round (cappedDelay + jitter)`.
`Math.round x` is `⌊x + 1/2⌋` (halves round toward positive infinity). -/

def cappedDelay (attempt : ℕ) : ℚ :=
  min (INITIAL_DELAY_MS * BACKOFF_MULTIPLIER ^ attempt) MAX_DELAY_MS

def backoffDelay (attempt : ℕ) (rand : ℚ) : ℤ :=
  ⌊cappedDelay attempt + cappedDelay attempt * JITTER_PERCENTAGE * (rand * 2 - 1) + 1/2⌋

/-! ## Thrown JS values, as far as the code inspects them

`isNonRetryableError` looks at: is the value a non-null object, does it have a
`statusCode` field, and is that field a number in `{400, 401, 403, 404}`.
`Error` instances carry a `message` and no `statusCode`. -/

inductive ErrVal where
  | errorMsg (msg : String)
  | objStatus (statusCode : Int)
  | objStatusNonNumeric
  | objNoStatus
  | nonObject
deriving DecidableEq, Repr

def isNonRetryableError : ErrVal → Bool
  | .objStatus statusCode =>
      statusCode == 400 || statusCode == 401 || statusCode == 403 || statusCode == 404
  | _ => false

/-- Auxiliary fact: for `attempt ≥ 1` the capped delay is `4 * m` for an
integer `m ≥ 500`. -/
theorem cappedDelay_eq_four_mul (attempt : ℕ) (hattempt : 1 ≤ attempt) :
    ∃ m : ℤ, cappedDelay attempt = (m : ℚ) * 4 ∧ 500 ≤ m := by
  unfold cappedDelay INITIAL_DELAY_MS BACKOFF_MULTIPLIER MAX_DELAY_MS
  rcases le_total ((1000 : ℚ) * 2 ^ attempt) 30000 with h | h
  · refine ⟨250 * 2 ^ attempt, ?_, ?_⟩
    · rw [min_eq_left h]; push_cast; ring
    · have h2 : (2 : ℤ) ^ 1 ≤ 2 ^ attempt :=
        pow_le_pow_right₀ (by norm_num) hattempt
      nlinarith
  · exact ⟨7500, by rw [min_eq_right h]; norm_num, by norm_num⟩

/-- C1: for every failed attempt number `attempt ≥ 1` and every value `rand`
of `Math.random()` in `[0, 1)`, the computed delay
`round(min(initialDelay * multiplier ^ attempt, maxDelay) + jitter)` with
`jitter = capped * jitterFraction * (rand * 2 - 1)` lies within
`[capped * (1 - jitterFraction), capped * (1 + jitterFraction)]`, is never
negative, and for `attempt = 1` under the default configuration it lies in
`[1500, 2500]` milliseconds. -/
theorem backoff_delay_within_jitter_envelope (attempt : ℕ) (hattempt : 1 ≤ attempt)
    (rand : ℚ) (h0 : 0 ≤ rand) (h1 : rand < 1) :
    cappedDelay attempt * (1 - JITTER_PERCENTAGE) ≤ (backoffDelay attempt rand : ℚ) ∧
    (backoffDelay attempt rand : ℚ) ≤ cappedDelay attempt * (1 + JITTER_PERCENTAGE) ∧
    0 ≤ backoffDelay attempt rand ∧
    (attempt = 1 → 1500 ≤ backoffDelay attempt rand ∧ backoffDelay attempt rand ≤ 2500) := by
  obtain ⟨m, hm, hm500⟩ := cappedDelay_eq_four_mul attempt hattempt
  have key : backoffDelay attempt rand =
      ⌊cappedDelay attempt + cappedDelay attempt * JITTER_PERCENTAGE * (rand * 2 - 1) + 1/2⌋ := rfl
  have hm500q : (500 : ℚ) ≤ (m : ℚ) := by exact_mod_cast hm500
  have hmr : 0 ≤ (m : ℚ) * rand := mul_nonneg (by linarith) h0
  have hmr1 : (m : ℚ) * rand < (m : ℚ) := by
    nlinarith [mul_lt_mul_of_pos_left h1 (show (0 : ℚ) < (m : ℚ) by linarith)]
  have hlow : ((3 * m : ℤ) : ℚ) ≤
      cappedDelay attempt + cappedDelay attempt * JITTER_PERCENTAGE * (rand * 2 - 1) + 1/2 := by
    rw [hm]; unfold JITTER_PERCENTAGE
    push_cast
    nlinarith [hmr]
  have hfloor_low : 3 * m ≤ backoffDelay attempt rand := by
    rw [key]; exact Int.le_floor.mpr hlow
  have hhigh : cappedDelay attempt + cappedDelay attempt * JITTER_PERCENTAGE * (rand * 2 - 1) + 1/2 <
      ((5 * m + 1 : ℤ) : ℚ) := by
    rw [hm]; unfold JITTER_PERCENTAGE
    push_cast
    nlinarith [hmr1]
  have hfloor_high : backoffDelay attempt rand ≤ 5 * m := by
    rw [key]
    have := Int.floor_lt.mpr hhigh
    omega
  have hcast_low : ((3 * m : ℤ) : ℚ) ≤ (backoffDelay attempt rand : ℚ) := by
    exact_mod_cast hfloor_low
  have hcast_high : (backoffDelay attempt rand : ℚ) ≤ ((5 * m : ℤ) : ℚ) := by
    exact_mod_cast hfloor_high
  refine ⟨?_, ?_, ?_, ?_⟩
  · rw [hm]; unfold JITTER_PERCENTAGE; push_cast at hcast_low ⊢; linarith
  · rw [hm]; unfold JITTER_PERCENTAGE; push_cast at hcast_high ⊢; linarith
  · omega
  · intro h1eq
    subst h1eq
    have hc : cappedDelay 1 = 2000 := by
      unfold cappedDelay INITIAL_DELAY_MS BACKOFF_MULTIPLIER MAX_DELAY_MS; norm_num
    have hmq : (m : ℚ) * 4 = 2000 := by rw [← hm, hc]
    have hm' : m = 500 := by
      have : (m : ℚ) = 500 := by linarith
      exact_mod_cast this
    omega

/-- Witness for C1 at `attempt = 1`, `rand = 1/2` (zero jitter). -/
theorem backoff_delay_within_jitter_envelope_witness :
    (1 : ℕ) ≤ 1 ∧ (0 : ℚ) ≤ 1/2 ∧ (1/2 : ℚ) < 1 ∧
    1500 ≤ backoffDelay 1 (1/2) ∧ backoffDelay 1 (1/2) ≤ 2500 := by
  have h := backoff_delay_within_jitter_envelope 1 (le_refl 1) (1/2) (by norm_num) (by norm_num)
  exact ⟨le_refl 1, by norm_num, by norm_num, (h.2.2.2 rfl).1, (h.2.2.2 rfl).2⟩

/-! ## Retry executor

`retryWithBackoff` runs `operation` for `attempt = 1, 2, ..., maxRetries`
(the source fixes `maxRetries = MAX_RETRIES = 3`); it returns the first
success, aborts immediately on a non-retryable error, sleeps for the backoff
delay between consecutive attempts (never after the last), and rethrows the
last observed error once attempts are exhausted.

The outcome of the `n`-th invocation of the operation is supplied as
`op n`; the `Math.random()` draw used after a failed attempt `n` is
`rand n`.  The returned trace records the result (`Except`), the number of
invocations of the operation, and the list of awaited delays in order. -/

inductive Outcome (T : Type) where
  | ok (t : T)
  | err (e : ErrVal)
deriving DecidableEq, Repr

structure RetryTrace (T : Type) where
  result : Except ErrVal T
  calls : ℕ
  delays : List ℤ
deriving Repr

def retryAux {T : Type} (op : ℕ → Outcome T) (rand : ℕ → ℚ) (maxRetries : ℕ) :
    ℕ → ℕ → ErrVal → RetryTrace T
  | _, 0, lastError => ⟨.error lastError, 0, []⟩
  | attempt, fuel + 1, _ =>
    match op attempt with
    | .ok t => ⟨.ok t, 1, []⟩
    | .err e =>
      if isNonRetryableError e then ⟨.error e, 1, []⟩
      else if attempt < maxRetries then
        let rest := retryAux op rand maxRetries (attempt + 1) fuel e
        ⟨rest.result, rest.calls + 1, backoffDelay attempt (rand attempt) :: rest.delays⟩
      else
        let rest := retryAux op rand maxRetries (attempt + 1) fuel e
        ⟨rest.result, rest.calls + 1, rest.delays⟩

def retryWithBackoff {T : Type} (op : ℕ → Outcome T) (rand : ℕ → ℚ)
    (maxRetries : ℕ) : RetryTrace T :=
  retryAux op rand maxRetries 1 maxRetries .nonObject

/-- Helper: when every attempt fails with a retryable error, `retryAux`
consumes all its fuel, waits once per non-final iteration, and ends with the
error of the final attempt. -/
theorem retryAux_all_retryable {T : Type} (op : ℕ → Outcome T) (e : ℕ → ErrVal)
    (rand : ℕ → ℚ) (maxRetries : ℕ)
    (hop : ∀ n, op n = .err (e n)) (hre : ∀ n, isNonRetryableError (e n) = false) :
    ∀ fuel attempt lastError, attempt + fuel = maxRetries + 1 → 1 ≤ fuel →
    retryAux op rand maxRetries attempt fuel lastError =
      ⟨.error (e maxRetries), fuel,
        (List.range (fuel - 1)).map (fun i => backoffDelay (attempt + i) (rand (attempt + i)))⟩ := by
  intro fuel
  induction fuel with
  | zero => intro _ _ _ hge; omega
  | succ f ih =>
    intro attempt lastError hsum _
    rcases Nat.eq_zero_or_pos f with hf0 | hfpos
    · subst hf0
      have hatt : attempt = maxRetries := by omega
      subst hatt
      simp [retryAux, hop, hre]
    · have hlt : attempt < maxRetries := by omega
      have hrec := ih (attempt + 1) (e attempt) (by omega) (by omega)
      simp only [retryAux, hop, hre, Bool.false_eq_true, if_false, if_pos hlt, hrec,
        RetryTrace.mk.injEq, Nat.add_sub_cancel]
      refine ⟨trivial, trivial, ?_⟩
      conv_rhs => rw [show f = (f - 1) + 1 by omega, List.range_succ_eq_map]
      rw [List.map_cons, List.map_map]
      congr 1
      apply List.map_congr_left
      intro i _
      have hidx : attempt + 1 + i = attempt + (i + 1) := by omega
      rw [hidx]
      rfl

/-- C2: for every `maxAttempts ≥ 1` (the source default is `MAX_RETRIES = 3`)
and every operation that fails with a retryable error on every invocation,
`retryWithBackoff` invokes the operation exactly `maxAttempts` times, awaits
the backoff delay of attempt `i` between attempts `i` and `i + 1` (so
`maxAttempts - 1` waits, none after the last attempt), and propagates the
error observed on the final attempt. -/
theorem retry_all_fail_exhausts {T : Type} (op : ℕ → Outcome T) (e : ℕ → ErrVal)
    (rand : ℕ → ℚ) (maxRetries : ℕ) (hmax : 1 ≤ maxRetries)
    (hop : ∀ n, op n = .err (e n)) (hre : ∀ n, isNonRetryableError (e n) = false) :
    retryWithBackoff op rand maxRetries =
      ⟨.error (e maxRetries), maxRetries,
        (List.range (maxRetries - 1)).map (fun i => backoffDelay (1 + i) (rand (1 + i)))⟩ ∧
    MAX_RETRIES = 3 := by
  refine ⟨?_, rfl⟩
  unfold retryWithBackoff
  exact retryAux_all_retryable op e rand maxRetries hop hre maxRetries 1 .nonObject (by omega) hmax

/-- Witness for C2: an operation that always fails with a retryable error
(an object without a `statusCode`) under the default three attempts. -/
theorem retry_all_fail_exhausts_witness :
    (retryWithBackoff (T := Unit) (fun _ => .err .objNoStatus) (fun _ => 1/2) 3).result =
      .error .objNoStatus ∧
    (retryWithBackoff (T := Unit) (fun _ => .err .objNoStatus) (fun _ => 1/2) 3).calls = 3 ∧
    (retryWithBackoff (T := Unit) (fun _ => .err .objNoStatus) (fun _ => 1/2) 3).delays.length = 2 := by
  have h := retry_all_fail_exhausts (T := Unit) (fun _ => .err .objNoStatus)
    (fun _ => ErrVal.objNoStatus) (fun _ => 1/2) 3 (by norm_num) (fun _ => rfl) (fun _ => rfl)
  rw [h.1]
  refine ⟨rfl, rfl, by simp⟩

/-- Helper: if attempts `attempt, ..., k - 1` fail with retryable errors and
attempt `k` fails with a non-retryable error, `retryAux` stops right at
attempt `k`: it makes `k + 1 - attempt` invocations, waits once per attempt
before `k`, and propagates the non-retryable error. -/
theorem retryAux_abort {T : Type} (op : ℕ → Outcome T) (rand : ℕ → ℚ)
    (maxRetries k : ℕ) (e' : ErrVal)
    (hk : op k = .err e') (hnr : isNonRetryableError e' = true)
    (hop : ∀ i, 1 ≤ i → i < k → ∃ ei, op i = .err ei ∧ isNonRetryableError ei = false) :
    ∀ fuel attempt lastError, attempt + fuel = maxRetries + 1 → 1 ≤ attempt →
    attempt ≤ k → k ≤ maxRetries →
    retryAux op rand maxRetries attempt fuel lastError =
      ⟨.error e', k + 1 - attempt,
        (List.range (k - attempt)).map (fun i => backoffDelay (attempt + i) (rand (attempt + i)))⟩ := by
  intro fuel
  induction fuel with
  | zero => intro attempt lastError hsum _ hak hkm; omega
  | succ f ih =>
    intro attempt lastError hsum hone hak hkm
    rcases Nat.lt_or_ge attempt k with hlt | hge
    · obtain ⟨ei, hei, hrei⟩ := hop attempt hone hlt
      have hltm : attempt < maxRetries := by omega
      have hrec := ih (attempt + 1) ei (by omega) (by omega) (by omega) hkm
      simp only [retryAux, hei, hrei, Bool.false_eq_true, if_false, if_pos hltm, hrec,
        RetryTrace.mk.injEq]
      refine ⟨trivial, by omega, ?_⟩
      have hka : k - attempt = (k - (attempt + 1)) + 1 := by omega
      conv_rhs => rw [hka, List.range_succ_eq_map]
      rw [List.map_cons, List.map_map]
      congr 1
      apply List.map_congr_left
      intro i _
      have hidx : attempt + 1 + i = attempt + (i + 1) := by omega
      rw [hidx]
      rfl
    · have hak' : attempt = k := by omega
      subst hak'
      simp [retryAux, hk, hnr]

/-- C3: the default non-retryable classifier accepts exactly the error values
that are objects carrying a numeric `statusCode` in `{400, 401, 403, 404}`;
whenever attempt `k` fails with such an error (after `k - 1` retryable
failures), the retry executor makes exactly `k` invocations, performs no
further attempt and no further backoff wait, and propagates that error
immediately, for every `maxRetries`; in particular an operation that always
fails with `statusCode = 404` is invoked exactly once. -/
theorem non_retryable_aborts_immediately :
    (∀ e, isNonRetryableError e = true ↔
      ∃ c, e = .objStatus c ∧ (c = 400 ∨ c = 401 ∨ c = 403 ∨ c = 404)) ∧
    (∀ (T : Type) (op : ℕ → Outcome T) (rand : ℕ → ℚ) (maxRetries k : ℕ) (e' : ErrVal),
      1 ≤ k → k ≤ maxRetries →
      (∀ i, 1 ≤ i → i < k → ∃ ei, op i = .err ei ∧ isNonRetryableError ei = false) →
      op k = .err e' → isNonRetryableError e' = true →
      retryWithBackoff op rand maxRetries =
        ⟨.error e', k,
          (List.range (k - 1)).map (fun i => backoffDelay (1 + i) (rand (1 + i)))⟩) ∧
    (∀ (T : Type) (op : ℕ → Outcome T) (rand : ℕ → ℚ) (maxRetries : ℕ),
      1 ≤ maxRetries → (∀ n, op n = .err (.objStatus 404)) →
      retryWithBackoff op rand maxRetries =
        ⟨.error (.objStatus 404), 1, []⟩) := by
  refine ⟨?_, ?_, ?_⟩
  · intro e
    cases e with
    | objStatus c =>
      simp only [isNonRetryableError, Bool.or_eq_true, beq_iff_eq, ErrVal.objStatus.injEq]
      constructor
      · rintro h
        exact ⟨c, rfl, by tauto⟩
      · rintro ⟨c', hc, h⟩
        subst hc
        tauto
    | errorMsg m => simp [isNonRetryableError]
    | objStatusNonNumeric => simp [isNonRetryableError]
    | objNoStatus => simp [isNonRetryableError]
    | nonObject => simp [isNonRetryableError]
  · intro T op rand maxRetries k e' hk1 hkm hop hk hnr
    unfold retryWithBackoff
    have h := retryAux_abort op rand maxRetries k e' hk hnr hop maxRetries 1 .nonObject
      (by omega) (le_refl 1) hk1 hkm
    rw [h]
    congr 1
  · intro T op rand maxRetries hmax hop
    have h := retryAux_abort op rand maxRetries 1 (.objStatus 404) (hop 1) rfl
      (by intro i h1 hi; omega) maxRetries 1 .nonObject (by omega) (le_refl 1) (le_refl 1) hmax
    unfold retryWithBackoff
    rw [h]
    simp

/-- Witness for C3: an operation that always fails with `statusCode = 404`
under the default three attempts is invoked exactly once, with no waits. -/
theorem non_retryable_aborts_immediately_witness :
    retryWithBackoff (T := Unit) (fun _ => .err (.objStatus 404)) (fun _ => 1/2) 3 =
      ⟨.error (.objStatus 404), 1, []⟩ :=
  non_retryable_aborts_immediately.2.2 Unit (fun _ => .err (.objStatus 404)) (fun _ => 1/2) 3
    (by norm_num) (fun _ => rfl)

/-! ## Data model (types.ts) -/

inductive ContactStatus where
  | new
  | read
  | replied
deriving DecidableEq, Repr

inductive WaitlistStatus where
  | active
  | notified
  | converted
deriving DecidableEq, Repr

structure ContactSubmission where
  id : String
  name : String
  email : String
  message : String
  status : ContactStatus
  submittedAt : String
  _partitionKey : String
deriving DecidableEq, Repr

structure WaitlistSubmission where
  id : String
  email : String
  name : Option String
  status : WaitlistStatus
  position : ℕ
  submittedAt : String
  _partitionKey : String
deriving DecidableEq, Repr

/-- Input of `createContactSubmission` (`Omit<ContactSubmission, 'id' | '_partitionKey'>`). -/
structure ContactCreateData where
  name : String
  email : String
  message : String
  status : ContactStatus
  submittedAt : String
deriving DecidableEq, Repr

/-- Input of `createWaitlistSubmission`
(`Omit<WaitlistSubmission, 'id' | '_partitionKey' | 'position'>`). -/
structure WaitlistCreateData where
  email : String
  name : Option String
  status : WaitlistStatus
  submittedAt : String
deriving DecidableEq, Repr

/-! ## Submission store (database.service.ts)

Each container is a list of records in insertion order.  The Cosmos query
backend is modelled per its contract: an equality filter, an `ORDER BY`
comparator, and a result-count limit (`maxItemCount`). -/

def createContactSubmission (store : List ContactSubmission) (d : ContactCreateData)
    (uuid : String) : ContactSubmission × List ContactSubmission :=
  let sub : ContactSubmission :=
    { id := "contact-" ++ uuid, name := d.name, email := d.email, message := d.message,
      status := d.status, submittedAt := d.submittedAt, _partitionKey := d.email }
  (sub, store ++ [sub])

/-- `SELECT VALUE COUNT(1) FROM c WHERE c.status = 'active'`. -/
def getWaitlistCount (store : List WaitlistSubmission) : ℕ :=
  (store.filter (fun s => s.status == .active)).length

def createWaitlistSubmission (store : List WaitlistSubmission) (d : WaitlistCreateData)
    (uuid : String) : WaitlistSubmission × List WaitlistSubmission :=
  let position := getWaitlistCount store + 1
  let sub : WaitlistSubmission :=
    { id := "waitlist-" ++ uuid, email := d.email, name := d.name, status := d.status,
      position := position, submittedAt := d.submittedAt, _partitionKey := d.email }
  (sub, store ++ [sub])

/-- `SELECT * FROM c WHERE c.email = @email` with `maxItemCount: 1`;
`resources[0]` when non-empty, `null` otherwise.  No status filter. -/
def getWaitlistSubmissionByEmail (store : List WaitlistSubmission) (email : String) :
    Option WaitlistSubmission :=
  (store.filter (fun s => s.email == email)).head?

/-- `SELECT * FROM c [WHERE c.status = @status] ORDER BY c.submittedAt DESC`
with result-count limit `limit` (default 100). -/
def getAllContactSubmissions (store : List ContactSubmission)
    (status : Option ContactStatus) (limit : ℕ := 100) : List ContactSubmission :=
  let filtered := match status with
    | none => store
    | some s => store.filter (fun r => r.status == s)
  (filtered.mergeSort (fun a b => decide (b.submittedAt ≤ a.submittedAt))).take limit

/-- `SELECT * FROM c [WHERE c.status = @status] ORDER BY c.position ASC`
with result-count limit `limit` (default 100). -/
def getAllWaitlistSubmissions (store : List WaitlistSubmission)
    (status : Option WaitlistStatus) (limit : ℕ := 100) : List WaitlistSubmission :=
  let filtered := match status with
    | none => store
    | some s => store.filter (fun r => r.status == s)
  (filtered.mergeSort (fun a b => decide (a.position ≤ b.position))).take limit

/-! ## Email service (email.service.ts) -/

/-- `error instanceof Error ? error.message : 'Unknown error'`. -/
def errMessage : ErrVal → String
  | .errorMsg m => m
  | _ => "Unknown error"

/-- Critical contact confirmation send: retried; on final failure rethrown as
a fresh `Error` wrapping the cause's message. -/
def sendContactConfirmationEmail (gateway : ℕ → Outcome Unit) (rand : ℕ → ℚ) :
    Except ErrVal Unit :=
  match (retryWithBackoff gateway rand MAX_RETRIES).result with
  | .ok _ => .ok ()
  | .error e => .error (.errorMsg ("Failed to send confirmation email: " ++ errMessage e))

/-- Non-critical admin notification send: retried; on final failure the error
is caught and logged (second component `true`), never rethrown. -/
def sendContactNotificationEmail (gateway : ℕ → Outcome Unit) (rand : ℕ → ℚ) :
    Except ErrVal Unit × Bool :=
  match (retryWithBackoff gateway rand MAX_RETRIES).result with
  | .ok _ => (.ok (), false)
  | .error _ => (.ok (), true)

/-- The class method the waitlist handler resolves: a stub that throws
`Error('Method not implemented.')` without touching the retry executor or
the email client. -/
def sendWaitlistConfirmationEmail (_submission : WaitlistSubmission) : Except ErrVal Unit :=
  .error (.errorMsg "Method not implemented.")

/-- The waitlist admin notification the handler resolves: the same stub. -/
def sendWaitlistNotificationEmail (_submission : WaitlistSubmission) : Except ErrVal Unit :=
  .error (.errorMsg "Method not implemented.")

/-! ## Handler cores (contact-form/index.ts, waitlist/index.ts)

The post-validation part of each handler, as a function of the initial store
contents, the (validated) request fields, the generated UUID, the email
gateway behaviour and the randomness stream.  Every handler returns its HTTP
response, the final store contents, and the ordered trace of effects:
`persist id` when the create call returns, and `sendAttempt kind n` for the
`n`-th gateway invocation of a send. -/

def sanitizeString (input : String) (maxLength : ℕ) : String :=
  input.trim.take maxLength

inductive SendKind where
  | contactConfirm
  | contactNotify
  | waitlistConfirm
  | waitlistNotify
deriving DecidableEq, Repr

inductive Event where
  | persist (id : String)
  | sendAttempt (kind : SendKind) (attempt : ℕ)
deriving DecidableEq, Repr

def attemptEvents (kind : SendKind) (tr : RetryTrace Unit) : List Event :=
  (List.range tr.calls).map (fun i => .sendAttempt kind (i + 1))

structure ContactRespData where
  submissionId : String
  email : String
deriving DecidableEq, Repr

structure ContactResponse where
  status : ℕ
  success : Bool
  message : String
  data : Option ContactRespData
  error : Option String
deriving DecidableEq, Repr

structure WaitlistRespData where
  submissionId : String
  email : String
  position : ℕ
deriving DecidableEq, Repr

structure WaitlistResponse where
  status : ℕ
  success : Bool
  message : String
  data : Option WaitlistRespData
  error : Option String
deriving DecidableEq, Repr

/-- Generic catch-all failure response of the contact handler (with
`SHOW_DETAILED_ERRORS` unset): nothing was persisted and no record data is
reported. -/
def contactGenericErrorResponse : ContactResponse :=
  { status := 500, success := false,
    message := "An error occurred while processing your message. Please try again later.",
    data := none, error := some "Internal server error" }

structure ContactCoreResult where
  response : ContactResponse
  store : List ContactSubmission
  events : List Event
deriving Repr

def contactFormCore (store : List ContactSubmission)
    (name email message submittedAt uuid : String)
    (gConfirm gNotify : ℕ → Outcome Unit) (randC randN : ℕ → ℚ) : ContactCoreResult :=
  let created := createContactSubmission store
    { name := sanitizeString name 100, email := email.toLower.trim,
      message := sanitizeString message 2000, status := .new,
      submittedAt := submittedAt } uuid
  let sub := created.1
  let newStore := created.2
  let confirmTrace := retryWithBackoff gConfirm randC MAX_RETRIES
  match sendContactConfirmationEmail gConfirm randC with
  | .error _ =>
    { response :=
        { status := 500, success := false,
          message := "Your message was saved, but we could not send the confirmation email. Please try again or contact us directly.",
          data := some { submissionId := sub.id, email := sub.email },
          error := some "Failed to send confirmation email" },
      store := newStore,
      events := .persist sub.id :: attemptEvents .contactConfirm confirmTrace }
  | .ok _ =>
    let notifyTrace := retryWithBackoff gNotify randN MAX_RETRIES
    let _fireAndForget := sendContactNotificationEmail gNotify randN
    { response :=
        { status := 200, success := true,
          message := "Thank you for contacting us! We will get back to you within 24-48 hours.",
          data := some { submissionId := sub.id, email := sub.email },
          error := none },
      store := newStore,
      events := .persist sub.id ::
        (attemptEvents .contactConfirm confirmTrace ++ attemptEvents .contactNotify notifyTrace) }

structure WaitlistCoreResult where
  response : WaitlistResponse
  store : List WaitlistSubmission
  events : List Event
deriving Repr

def waitlistCore (store : List WaitlistSubmission) (email : String) (name : Option String)
    (submittedAt uuid : String) : WaitlistCoreResult :=
  match getWaitlistSubmissionByEmail store email.toLower.trim with
  | some existing =>
    { response :=
        { status := 200, success := true,
          message := "You are already on our waitlist! We will notify you when we launch.",
          data := some { submissionId := existing.id, email := existing.email,
                         position := existing.position },
          error := none },
      store := store, events := [] }
  | none =>
    let created := createWaitlistSubmission store
      { email := email.toLower.trim,
        name := match name with
          | some n => if n = "" then none else some (sanitizeString n 100)
          | none => none,
        status := .active, submittedAt := submittedAt } uuid
    let sub := created.1
    let newStore := created.2
    match sendWaitlistConfirmationEmail sub with
    | .error _ =>
      { response :=
          { status := 500, success := false,
            message := "You have been added to the waitlist, but we could not send the confirmation email. Please try again or contact us directly.",
            data := some { submissionId := sub.id, email := sub.email,
                           position := sub.position },
            error := some "Failed to send confirmation email" },
        store := newStore, events := [.persist sub.id] }
    | .ok _ =>
      let _swallowed := sendWaitlistNotificationEmail sub
      { response :=
          { status := 200, success := true,
            message := "Welcome to the waitlist! You will be notified when AgentOja launches.",
            data := some { submissionId := sub.id, email := sub.email,
                           position := sub.position },
            error := none },
        store := newStore, events := [.persist sub.id] }

/-- Helper: every event produced by `attemptEvents` is a gateway send
attempt. -/
theorem attemptEvents_all_sendAttempt (kind : SendKind) (tr : RetryTrace Unit) :
    ∀ ev ∈ attemptEvents kind tr, ∃ k n, ev = Event.sendAttempt k n := by
  intro ev hev
  simp only [attemptEvents, List.mem_map] at hev
  obtain ⟨i, _, hi⟩ := hev
  exact ⟨kind, i + 1, hi.symm⟩

/-- C4: when the critical contact confirmation send finally fails
(exhaustion or non-retryable abort), `sendContactConfirmationEmail`
propagates a fresh `Error` wrapping the cause, and the handler responds with
a degraded outcome: it still reports the persisted record's id and email
while flagging the confirmation-email error, keeps the record in the store,
and is distinguishable from the total-failure response, which reports no
record data. -/
theorem contact_confirmation_failure_degraded
    (store : List ContactSubmission) (name email message submittedAt uuid : String)
    (gConfirm gNotify : ℕ → Outcome Unit) (randC randN : ℕ → ℚ) (e : ErrVal)
    (hfail : (retryWithBackoff gConfirm randC MAX_RETRIES).result = .error e) :
    sendContactConfirmationEmail gConfirm randC =
      .error (.errorMsg ("Failed to send confirmation email: " ++ errMessage e)) ∧
    ∃ sub : ContactSubmission,
      (contactFormCore store name email message submittedAt uuid gConfirm gNotify randC randN).store =
        store ++ [sub] ∧
      (contactFormCore store name email message submittedAt uuid gConfirm gNotify randC randN).response.status = 500 ∧
      (contactFormCore store name email message submittedAt uuid gConfirm gNotify randC randN).response.data =
        some { submissionId := sub.id, email := sub.email } ∧
      (contactFormCore store name email message submittedAt uuid gConfirm gNotify randC randN).response.error =
        some "Failed to send confirmation email" ∧
      (contactFormCore store name email message submittedAt uuid gConfirm gNotify randC randN).response ≠
        contactGenericErrorResponse ∧
      contactGenericErrorResponse.data = none := by
  have hsend : sendContactConfirmationEmail gConfirm randC =
      .error (.errorMsg ("Failed to send confirmation email: " ++ errMessage e)) := by
    unfold sendContactConfirmationEmail
    rw [hfail]
  refine ⟨hsend, (createContactSubmission store
    { name := sanitizeString name 100, email := email.toLower.trim,
      message := sanitizeString message 2000, status := .new,
      submittedAt := submittedAt } uuid).1, ?_, ?_, ?_, ?_, ?_, rfl⟩
  · simp [contactFormCore, hsend, createContactSubmission]
  · simp [contactFormCore, hsend]
  · simp [contactFormCore, hsend]
  · simp [contactFormCore, hsend]
  · simp [contactFormCore, hsend, contactGenericErrorResponse]

/-- Witness for C4: a gateway that always fails with a retryable error. -/
theorem contact_confirmation_failure_degraded_witness :
    sendContactConfirmationEmail (fun _ => .err .objNoStatus) (fun _ => 1/2) =
      .error (.errorMsg ("Failed to send confirmation email: " ++ errMessage .objNoStatus)) ∧
    ∃ sub : ContactSubmission,
      (contactFormCore [] "Jane Doe" "jane@x.com" "hi" "t0" "u0"
        (fun _ => .err .objNoStatus) (fun _ => .ok ()) (fun _ => 1/2) (fun _ => 1/2)).store =
        [] ++ [sub] ∧
      (contactFormCore [] "Jane Doe" "jane@x.com" "hi" "t0" "u0"
        (fun _ => .err .objNoStatus) (fun _ => .ok ()) (fun _ => 1/2) (fun _ => 1/2)).response.status = 500 ∧
      (contactFormCore [] "Jane Doe" "jane@x.com" "hi" "t0" "u0"
        (fun _ => .err .objNoStatus) (fun _ => .ok ()) (fun _ => 1/2) (fun _ => 1/2)).response.data =
        some { submissionId := sub.id, email := sub.email } ∧
      (contactFormCore [] "Jane Doe" "jane@x.com" "hi" "t0" "u0"
        (fun _ => .err .objNoStatus) (fun _ => .ok ()) (fun _ => 1/2) (fun _ => 1/2)).response.error =
        some "Failed to send confirmation email" ∧
      (contactFormCore [] "Jane Doe" "jane@x.com" "hi" "t0" "u0"
        (fun _ => .err .objNoStatus) (fun _ => .ok ()) (fun _ => 1/2) (fun _ => 1/2)).response ≠
        contactGenericErrorResponse ∧
      contactGenericErrorResponse.data = none := by
  have h := contact_confirmation_failure_degraded [] "Jane Doe" "jane@x.com" "hi" "t0" "u0"
    (fun _ => .err .objNoStatus) (fun _ => .ok ()) (fun _ => 1/2) (fun _ => 1/2)
    .objNoStatus (by rfl)
  exact h

/-- C5: the non-critical contact admin notification never propagates a send
failure: `sendContactNotificationEmail` always resolves (failures are caught
and merely logged), and the handler's response and final store do not depend
on the notification gateway's behaviour at all. -/
theorem contact_notification_never_propagates :
    (∀ (gNotify : ℕ → Outcome Unit) (randN : ℕ → ℚ),
      (sendContactNotificationEmail gNotify randN).1 = .ok ()) ∧
    (∀ (store : List ContactSubmission) (name email message submittedAt uuid : String)
       (gConfirm gNotify gNotify' : ℕ → Outcome Unit) (randC randN randN' : ℕ → ℚ),
      (contactFormCore store name email message submittedAt uuid gConfirm gNotify randC randN).response =
        (contactFormCore store name email message submittedAt uuid gConfirm gNotify' randC randN').response ∧
      (contactFormCore store name email message submittedAt uuid gConfirm gNotify randC randN).store =
        (contactFormCore store name email message submittedAt uuid gConfirm gNotify' randC randN').store) := by
  constructor
  · intro gNotify randN
    unfold sendContactNotificationEmail
    cases (retryWithBackoff gNotify randN MAX_RETRIES).result <;> rfl
  · intro store name email message submittedAt uuid gConfirm gNotify gNotify' randC randN randN'
    cases hc : sendContactConfirmationEmail gConfirm randC <;>
      simp [contactFormCore, hc]

/-- C6: in both handlers persistence strictly precedes every notification
attempt, and no email-failure path ever removes the persisted record: the
event trace starts with the `persist` event followed only by send attempts,
and the final store is the initial store plus the created record (or exactly
the initial store on the duplicate path, which performs no send at all). -/
theorem persist_before_notify_no_rollback :
    (∀ (store : List ContactSubmission) (name email message submittedAt uuid : String)
       (gConfirm gNotify : ℕ → Outcome Unit) (randC randN : ℕ → ℚ),
      ∃ (sub : ContactSubmission) (rest : List Event),
        (contactFormCore store name email message submittedAt uuid gConfirm gNotify randC randN).events =
          .persist sub.id :: rest ∧
        (∀ ev ∈ rest, ∃ k n, ev = Event.sendAttempt k n) ∧
        (contactFormCore store name email message submittedAt uuid gConfirm gNotify randC randN).store =
          store ++ [sub]) ∧
    (∀ (store : List WaitlistSubmission) (email : String) (name : Option String)
       (submittedAt uuid : String),
      (∀ ex, getWaitlistSubmissionByEmail store email.toLower.trim = some ex →
        (waitlistCore store email name submittedAt uuid).events = [] ∧
        (waitlistCore store email name submittedAt uuid).store = store) ∧
      (getWaitlistSubmissionByEmail store email.toLower.trim = none →
        ∃ sub : WaitlistSubmission,
          (waitlistCore store email name submittedAt uuid).events = [.persist sub.id] ∧
          (waitlistCore store email name submittedAt uuid).store = store ++ [sub])) := by
  constructor
  · intro store name email message submittedAt uuid gConfirm gNotify randC randN
    refine ⟨(createContactSubmission store
      { name := sanitizeString name 100, email := email.toLower.trim,
        message := sanitizeString message 2000, status := .new,
        submittedAt := submittedAt } uuid).1, ?_⟩
    cases hc : sendContactConfirmationEmail gConfirm randC with
    | error e =>
      refine ⟨attemptEvents .contactConfirm (retryWithBackoff gConfirm randC MAX_RETRIES),
        ?_, ?_, ?_⟩
      · simp [contactFormCore, hc]
      · exact attemptEvents_all_sendAttempt _ _
      · simp [contactFormCore, hc, createContactSubmission]
    | ok _ =>
      refine ⟨attemptEvents .contactConfirm (retryWithBackoff gConfirm randC MAX_RETRIES) ++
        attemptEvents .contactNotify (retryWithBackoff gNotify randN MAX_RETRIES), ?_, ?_, ?_⟩
      · simp [contactFormCore, hc]
      · intro ev hev
        rcases List.mem_append.mp hev with h | h
        · exact attemptEvents_all_sendAttempt _ _ ev h
        · exact attemptEvents_all_sendAttempt _ _ ev h
      · simp [contactFormCore, hc, createContactSubmission]
  · intro store email name submittedAt uuid
    constructor
    · intro ex hex
      simp [waitlistCore, hex]
    · intro hnone
      refine ⟨(createWaitlistSubmission store
        { email := email.toLower.trim,
          name := match name with
            | some n => if n = "" then none else some (sanitizeString n 100)
            | none => none,
          status := .active, submittedAt := submittedAt } uuid).1, ?_, ?_⟩
      · simp [waitlistCore, hnone, sendWaitlistConfirmationEmail]
      · simp [waitlistCore, hnone, sendWaitlistConfirmationEmail, createWaitlistSubmission]

/-- Witness for C6 (waitlist branches): an empty store takes the
created-record path; a store already holding the email takes the duplicate
path with no events. -/
theorem persist_before_notify_no_rollback_witness :
    (∃ sub : WaitlistSubmission,
      (waitlistCore [] "a@b.c" none "t0" "u0").events = [.persist sub.id] ∧
      (waitlistCore [] "a@b.c" none "t0" "u0").store = [] ++ [sub]) ∧
    ((waitlistCore [⟨"waitlist-w", "a@b.c".toLower.trim, none, .notified, 1, "t0", "a@b.c"⟩]
        "a@b.c" none "t1" "u1").events = [] ∧
      (waitlistCore [⟨"waitlist-w", "a@b.c".toLower.trim, none, .notified, 1, "t0", "a@b.c"⟩]
        "a@b.c" none "t1" "u1").store =
        [⟨"waitlist-w", "a@b.c".toLower.trim, none, .notified, 1, "t0", "a@b.c"⟩]) := by
  constructor
  · exact (persist_before_notify_no_rollback.2 [] "a@b.c" none "t0" "u0").2 (by rfl)
  · exact (persist_before_notify_no_rollback.2
      [⟨"waitlist-w", "a@b.c".toLower.trim, none, .notified, 1, "t0", "a@b.c"⟩] "a@b.c" none "t1" "u1").1
      ⟨"waitlist-w", "a@b.c".toLower.trim, none, .notified, 1, "t0", "a@b.c"⟩
      (by simp [getWaitlistSubmissionByEmail])

/-- C7: `createWaitlistSubmission` assigns
`position = count of stored records with status active + 1`, where the count
is taken on the store as it is before the new record is persisted; the
returned record's id is the freshly generated `waitlist-` UUID, not a value
taken from the caller's data (whose type carries no id); in particular a
store with five active records yields `position = 6`. -/
theorem waitlist_position_is_active_count_plus_one :
    (∀ (store : List WaitlistSubmission) (d : WaitlistCreateData) (uuid : String),
      (createWaitlistSubmission store d uuid).1.position = getWaitlistCount store + 1 ∧
      (createWaitlistSubmission store d uuid).1.id = "waitlist-" ++ uuid ∧
      (createWaitlistSubmission store d uuid).2 =
        store ++ [(createWaitlistSubmission store d uuid).1]) ∧
    (∀ (store : List WaitlistSubmission) (d : WaitlistCreateData) (uuid : String),
      getWaitlistCount store = 5 →
      (createWaitlistSubmission store d uuid).1.position = 6) := by
  constructor
  · intro store d uuid
    exact ⟨rfl, rfl, rfl⟩
  · intro store d uuid h
    simp [createWaitlistSubmission, h]

/-- Witness for C7: five active records in the store give position 6. -/
theorem waitlist_position_is_active_count_plus_one_witness :
    getWaitlistCount (List.replicate 5
      ⟨"waitlist-a", "a@b.c", none, .active, 1, "t0", "a@b.c"⟩) = 5 ∧
    (createWaitlistSubmission (List.replicate 5
        ⟨"waitlist-a", "a@b.c", none, .active, 1, "t0", "a@b.c"⟩)
      ⟨"f@g.h", none, .active, "t1"⟩ "u1").1.position = 6 := by
  refine ⟨by rfl, ?_⟩
  exact waitlist_position_is_active_count_plus_one.2 _ _ "u1" (by rfl)

/-- C8: the `EmailService` method the waitlist handler invokes is the stub
that throws `Error('Method not implemented.')` for every submission without
touching the retry executor or the email gateway; hence every new waitlist
signup that reaches the confirmation step gets the degraded HTTP 500,
`success = false` response carrying the persisted record's id, email and
position, while the record itself stays persisted and no gateway send
attempt ever appears in the trace. -/
theorem waitlist_confirmation_stub_throws :
    (∀ sub : WaitlistSubmission,
      sendWaitlistConfirmationEmail sub = .error (.errorMsg "Method not implemented.")) ∧
    (∀ (store : List WaitlistSubmission) (email : String) (name : Option String)
       (submittedAt uuid : String),
      getWaitlistSubmissionByEmail store email.toLower.trim = none →
      ∃ sub : WaitlistSubmission,
        (waitlistCore store email name submittedAt uuid).response =
          { status := 500, success := false,
            message := "You have been added to the waitlist, but we could not send the confirmation email. Please try again or contact us directly.",
            data := some { submissionId := sub.id, email := sub.email,
                           position := sub.position },
            error := some "Failed to send confirmation email" } ∧
        (waitlistCore store email name submittedAt uuid).store = store ++ [sub] ∧
        (waitlistCore store email name submittedAt uuid).events = [.persist sub.id]) := by
  constructor
  · intro sub
    rfl
  · intro store email name submittedAt uuid hnone
    refine ⟨(createWaitlistSubmission store
      { email := email.toLower.trim,
        name := match name with
          | some n => if n = "" then none else some (sanitizeString n 100)
          | none => none,
        status := .active, submittedAt := submittedAt } uuid).1, ?_, ?_, ?_⟩
    · simp [waitlistCore, hnone, sendWaitlistConfirmationEmail]
    · simp [waitlistCore, hnone, sendWaitlistConfirmationEmail, createWaitlistSubmission]
    · simp [waitlistCore, hnone, sendWaitlistConfirmationEmail]

/-- Witness for C8: a fresh signup against an empty store. -/
theorem waitlist_confirmation_stub_throws_witness :
    ∃ sub : WaitlistSubmission,
      (waitlistCore [] "a@b.c" none "t0" "u0").response =
        { status := 500, success := false,
          message := "You have been added to the waitlist, but we could not send the confirmation email. Please try again or contact us directly.",
          data := some { submissionId := sub.id, email := sub.email,
                         position := sub.position },
          error := some "Failed to send confirmation email" } ∧
      (waitlistCore [] "a@b.c" none "t0" "u0").store = [] ++ [sub] ∧
      (waitlistCore [] "a@b.c" none "t0" "u0").events = [.persist sub.id] :=
  waitlist_confirmation_stub_throws.2 [] "a@b.c" none "t0" "u0" (by rfl)

/-- C9: the duplicate-signup lookup queries by email only, with no status
filter: a one-record store is matched whatever the record's status is; and
when the only record matching the (normalized) email has a non-active status
the handler still answers with the already-on-the-waitlist response carrying
that record's id and position, and creates no new record. -/
theorem duplicate_check_matches_any_status :
    (∀ (r : WaitlistSubmission) (email : String), r.email = email →
      getWaitlistSubmissionByEmail [r] email = some r) ∧
    (∀ (store : List WaitlistSubmission) (email : String) (name : Option String)
       (submittedAt uuid : String) (r : WaitlistSubmission),
      store.filter (fun s => s.email == email.toLower.trim) = [r] →
      r.status ≠ .active →
      (waitlistCore store email name submittedAt uuid).response =
        { status := 200, success := true,
          message := "You are already on our waitlist! We will notify you when we launch.",
          data := some { submissionId := r.id, email := r.email,
                         position := r.position },
          error := none } ∧
      (waitlistCore store email name submittedAt uuid).store = store) := by
  constructor
  · intro r email h
    simp [getWaitlistSubmissionByEmail, List.filter, h]
  · intro store email name submittedAt uuid r hfilter _
    have hlook : getWaitlistSubmissionByEmail store email.toLower.trim = some r := by
      simp [getWaitlistSubmissionByEmail, hfilter]
    simp [waitlistCore, hlook]

/-- Witness for C9: a store whose only record for the email has status
`notified`. -/
theorem duplicate_check_matches_any_status_witness :
    (waitlistCore [⟨"waitlist-w", "x@y.z".toLower.trim, none, .notified, 3, "t0", "x@y.z"⟩]
        "x@y.z" none "t1" "u1").response =
      { status := 200, success := true,
        message := "You are already on our waitlist! We will notify you when we launch.",
        data := some { submissionId := "waitlist-w", email := "x@y.z".toLower.trim,
                       position := 3 },
        error := none } ∧
    (waitlistCore [⟨"waitlist-w", "x@y.z".toLower.trim, none, .notified, 3, "t0", "x@y.z"⟩]
        "x@y.z" none "t1" "u1").store =
      [⟨"waitlist-w", "x@y.z".toLower.trim, none, .notified, 3, "t0", "x@y.z"⟩] :=
  duplicate_check_matches_any_status.2
    [⟨"waitlist-w", "x@y.z".toLower.trim, none, .notified, 3, "t0", "x@y.z"⟩]
    "x@y.z" none "t1" "u1"
    ⟨"waitlist-w", "x@y.z".toLower.trim, none, .notified, 3, "t0", "x@y.z"⟩
    (by simp) (by simp)

/-- C10: `getAllContactSubmissions` returns contact records ordered by
`submittedAt` descending and `getAllWaitlistSubmissions` returns waitlist
records ordered by `position` ascending; with a status filter every returned
record has that status; each endpoint returns at most `limit` records, and
the limit defaults to 100. -/
theorem admin_listings_ordered_filtered_limited :
    (∀ (store : List ContactSubmission) (status : Option ContactStatus) (limit : ℕ),
      (getAllContactSubmissions store status limit).Pairwise
        (fun a b => b.submittedAt ≤ a.submittedAt) ∧
      (getAllContactSubmissions store status limit).length ≤ limit ∧
      (∀ s r, status = some s → r ∈ getAllContactSubmissions store status limit →
        r.status = s)) ∧
    (∀ (store : List ContactSubmission) (status : Option ContactStatus),
      getAllContactSubmissions store status = getAllContactSubmissions store status 100) ∧
    (∀ (store : List WaitlistSubmission) (status : Option WaitlistStatus) (limit : ℕ),
      (getAllWaitlistSubmissions store status limit).Pairwise
        (fun a b => a.position ≤ b.position) ∧
      (getAllWaitlistSubmissions store status limit).length ≤ limit ∧
      (∀ s r, status = some s → r ∈ getAllWaitlistSubmissions store status limit →
        r.status = s)) ∧
    (∀ (store : List WaitlistSubmission) (status : Option WaitlistStatus),
      getAllWaitlistSubmissions store status = getAllWaitlistSubmissions store status 100) := by
  refine ⟨?_, fun _ _ => rfl, ?_, fun _ _ => rfl⟩
  · intro store status limit
    refine ⟨?_, ?_, ?_⟩
    · have hsorted := @List.sorted_mergeSort ContactSubmission
        (fun a b => decide (b.submittedAt ≤ a.submittedAt))
        (fun a b c hab hbc => by
          simp only [decide_eq_true_eq] at hab hbc ⊢
          exact le_trans hbc hab)
        (fun a b => by
          simp only [Bool.or_eq_true, decide_eq_true_eq]
          exact le_total b.submittedAt a.submittedAt)
        (match status with
          | none => store
          | some s => store.filter (fun r => r.status == s))
      have htake := hsorted.sublist (List.take_sublist limit _)
      exact htake.imp (fun h => of_decide_eq_true h)
    · exact List.length_take_le limit _
    · intro s r hs hr
      subst hs
      simp only [getAllContactSubmissions] at hr
      have hr2 := List.mem_of_mem_take hr
      have hr3 := (List.mergeSort_perm _ _).mem_iff.mp hr2
      have := List.mem_filter.mp hr3
      exact beq_iff_eq.mp this.2
  · intro store status limit
    refine ⟨?_, ?_, ?_⟩
    · have hsorted := @List.sorted_mergeSort WaitlistSubmission
        (fun a b => decide (a.position ≤ b.position))
        (fun a b c hab hbc => by
          simp only [decide_eq_true_eq] at hab hbc ⊢
          exact le_trans hab hbc)
        (fun a b => by
          simp only [Bool.or_eq_true, decide_eq_true_eq]
          exact le_total a.position b.position)
        (match status with
          | none => store
          | some s => store.filter (fun r => r.status == s))
      have htake := hsorted.sublist (List.take_sublist limit _)
      exact htake.imp (fun h => of_decide_eq_true h)
    · exact List.length_take_le limit _
    · intro s r hs hr
      subst hs
      simp only [getAllWaitlistSubmissions] at hr
      have hr2 := List.mem_of_mem_take hr
      have hr3 := (List.mergeSort_perm _ _).mem_iff.mp hr2
      have := List.mem_filter.mp hr3
      exact beq_iff_eq.mp this.2

/-- Witness for C10: a concrete two-record store under limit 1 yields at
most one record, and a filtered query returns only records of the requested
status. -/
theorem admin_listings_ordered_filtered_limited_witness :
    (getAllContactSubmissions
      [⟨"contact-a", "A", "a@b.c", "m1", .new, "2024-01-02", "a@b.c"⟩,
       ⟨"contact-b", "B", "b@b.c", "m2", .read, "2024-01-01", "b@b.c"⟩] none 1).length ≤ 1 ∧
    (getAllWaitlistSubmissions
      [⟨"waitlist-a", "a@b.c", none, .active, 2, "t0", "a@b.c"⟩,
       ⟨"waitlist-b", "b@b.c", none, .notified, 1, "t1", "b@b.c"⟩] (some .active) 100).length ≤ 100 := by
  constructor
  · exact (admin_listings_ordered_filtered_limited.1 _ none 1).2.1
  · exact (admin_listings_ordered_filtered_limited.2.2.1 _ (some .active) 100).2.1
